import Mathlib

/-!
Verification of the register access and interpretation layer of the Parmair
Modbus-TCP integration (custom_components/parmair).  The definitions below are
a shallow embedding of the Python source: register catalogs and their lookup
(const.py), the raw-word decoder and encoder (coordinator.py), the range
batcher (coordinator._build_read_ranges), the firmware auto-detector
(config_flow._detect_device_info), the pymodbus keyword-convention shim
(pymodbus_compat.py), the write path (coordinator.write_register), and the
poll cycle's static/dynamic read split (coordinator._read_modbus_data).
Python floats are embedded as rationals and Python dicts as association lists
with insertion-order semantics.
-/

/-- Embeds `const.RegisterDefinition` (const.py lines 36-52): one Modbus
holding register used by the integration.  The `description` field of the
source is always `None` and never read, so it is omitted. -/
structure RegisterDefinition where
  key : String
  address : Nat
  label : String
  scale : ℚ := 1
  writable : Bool := false
  optional : Bool := false
  deriving DecidableEq

/-- Embeds `RegisterDefinition.register_id` (const.py lines 48-52): Address - 1000. -/
def RegisterDefinition.registerId (d : RegisterDefinition) : Int :=
  (d.address : Int) - 1000

/-- Lookup in a Python dict embedded as an association list (first match). -/
def dictGet {α : Type} (m : List (String × α)) (key : String) : Option α :=
  match m with
  | [] => none
  | (k, v) :: rest => if k = key then some v else dictGet rest key

/-- Python dict assignment `m[k] = v`: replaces the value in place when the
key exists (keeping its insertion position), otherwise appends. -/
def dictSet {α : Type} (m : List (String × α)) (key : String) (v : α) :
    List (String × α) :=
  match m with
  | [] => [(key, v)]
  | (k, w) :: rest => if k = key then (k, v) :: rest else (k, w) :: dictSet rest key v

/-- Builds a Python dict from the entries of a dict literal, applying the
duplicate-key rule (a later entry for the same key overwrites the earlier
value in place). -/
def dictOfLiteral {α : Type} (entries : List (String × α)) : List (String × α) :=
  entries.foldl (fun m e => dictSet m e.1 e.2) []

/-- Python `dict.update`: `dictUpdate m other` writes every entry of `other`
into `m` (overwriting on key collision), as in `data.update(self._static_data)`
(coordinator.py line 241). -/
def dictUpdate {α : Type} (m other : List (String × α)) : List (String × α) :=
  other.foldl (fun acc e => dictSet acc e.1 e.2) m

/-- Embeds `const.SOFTWARE_VERSION_1` (const.py line 22). -/
def SOFTWARE_VERSION_1 : String := "1.x"

/-- Embeds `const.SOFTWARE_VERSION_2` (const.py line 23). -/
def SOFTWARE_VERSION_2 : String := "2.x"

/-- Embeds `const.SOFTWARE_VERSION_UNKNOWN` (const.py line 24). -/
def SOFTWARE_VERSION_UNKNOWN : String := "unknown"

/-- Embeds `const.DEFAULT_SLAVE_ID` (const.py line 19). -/
def DEFAULT_SLAVE_ID : Int := 1

/-- The dict-literal entries of `const._build_registers_v1` (const.py lines
119-272), in source order.  Note the source literal lists the key
`overpressure_timer` twice (lines 180-182 writable, lines 239-241 not
writable); `dictOfLiteral` applies Python's duplicate-key overwrite rule. -/
def registersV1Entries : List (String × RegisterDefinition) :=
  [ ("hardware_type", { key := "hardware_type", address := 1244, label := "VENT_MACHINE" }),
    ("software_version", { key := "software_version", address := 1018, label := "MULTI_SW_VER", scale := 1/100 }),
    ("power", { key := "power", address := 1208, label := "POWER_BTN_FI", writable := true }),
    ("control_state", { key := "control_state", address := 1185, label := "IV01_CONTROLSTATE_FO", writable := true }),
    ("actual_speed", { key := "actual_speed", address := 1186, label := "IV01_SPEED_FO" }),
    ("speed_control", { key := "speed_control", address := 1187, label := "IV01_SPEED_FOC", writable := true }),
    ("fresh_air_temp", { key := "fresh_air_temp", address := 1020, label := "TE01_M", scale := 1/10 }),
    ("supply_after_recovery_temp", { key := "supply_after_recovery_temp", address := 1022, label := "TE05_M", scale := 1/10 }),
    ("supply_temp", { key := "supply_temp", address := 1023, label := "TE10_M", scale := 1/10 }),
    ("exhaust_temp", { key := "exhaust_temp", address := 1024, label := "TE30_M", scale := 1/10 }),
    ("waste_temp", { key := "waste_temp", address := 1025, label := "TE31_M", scale := 1/10 }),
    ("exhaust_temp_setpoint", { key := "exhaust_temp_setpoint", address := 1060, label := "TE30_S", scale := 1/10, writable := true }),
    ("supply_temp_setpoint", { key := "supply_temp_setpoint", address := 1065, label := "TE10_S", scale := 1/10, writable := true }),
    ("home_speed", { key := "home_speed", address := 1104, label := "HOME_SPEED_S", writable := true }),
    ("away_speed", { key := "away_speed", address := 1105, label := "AWAY_SPEED_S", writable := true }),
    ("boost_setting", { key := "boost_setting", address := 1117, label := "BOOST_SETTING_S", writable := true }),
    ("home_state", { key := "home_state", address := 1200, label := "HOME_STATE_FI" }),
    ("boost_state", { key := "boost_state", address := 1201, label := "BOOST_STATE_FI" }),
    ("boost_timer", { key := "boost_timer", address := 1202, label := "BOOST_TIMER_FM", writable := true }),
    ("overpressure_state", { key := "overpressure_state", address := 1203, label := "OVERP_STATE_FI" }),
    ("overpressure_timer", { key := "overpressure_timer", address := 1204, label := "OVERP_TIMER_FM", writable := true }),
    ("humidity", { key := "humidity", address := 1180, label := "MEXX_FM", optional := true }),
    ("humidity_24h_avg", { key := "humidity_24h_avg", address := 1192, label := "ME05_AVG_FM", scale := 1/10, optional := true }),
    ("co2", { key := "co2", address := 1031, label := "QE20_M", optional := true }),
    ("alarm_count", { key := "alarm_count", address := 1004, label := "ALARM_COUNT" }),
    ("sum_alarm", { key := "sum_alarm", address := 1005, label := "SUM_ALARM" }),
    ("alarms_state", { key := "alarms_state", address := 1206, label := "ALARMS_STATE_FI" }),
    ("summer_mode", { key := "summer_mode", address := 1079, label := "SUMMER_MODE_S", writable := true }),
    ("time_program_enable", { key := "time_program_enable", address := 1108, label := "TP_ENABLE_S", writable := true }),
    ("heater_enable", { key := "heater_enable", address := 1109, label := "HEATER_ENABLE_S", writable := true }),
    ("acknowledge_alarms", { key := "acknowledge_alarms", address := 1003, label := "ACK_ALARMS", writable := true }),
    ("filter_replaced", { key := "filter_replaced", address := 1205, label := "FILTER_STATE_FI", writable := true }),
    ("heater_type", { key := "heater_type", address := 1240, label := "HEAT_RADIATOR_TYPE", writable := true }),
    ("boost_time_setting", { key := "boost_time_setting", address := 1106, label := "BOOST_TIME_S", writable := true }),
    ("overpressure_time_setting", { key := "overpressure_time_setting", address := 1107, label := "OVERP_TIME_S", writable := true }),
    ("summer_mode_temp_limit", { key := "summer_mode_temp_limit", address := 1078, label := "SUMMER_MODE_TE01_LIMIT", scale := 1/10, writable := true }),
    ("filter_interval", { key := "filter_interval", address := 1085, label := "FILTER_INTERVAL_S", writable := true }),
    ("heat_recovery_efficiency", { key := "heat_recovery_efficiency", address := 1190, label := "FG50_EA_M", scale := 1/10 }),
    ("overpressure_timer", { key := "overpressure_timer", address := 1204, label := "OVERP_TIMER_FM" }),
    ("defrost_state", { key := "defrost_state", address := 1183, label := "DFRST_FI" }),
    ("supply_fan_speed", { key := "supply_fan_speed", address := 1040, label := "TF10_Y", scale := 1/10 }),
    ("exhaust_fan_speed", { key := "exhaust_fan_speed", address := 1042, label := "PF30_Y", scale := 1/10 }),
    ("filter_state", { key := "filter_state", address := 1205, label := "FILTER_STATE_FI" }),
    ("filter_day", { key := "filter_day", address := 1086, label := "FILTER_DAY", writable := true }),
    ("filter_month", { key := "filter_month", address := 1087, label := "FILTER_MONTH", writable := true }),
    ("filter_year", { key := "filter_year", address := 1088, label := "FILTER_YEAR", writable := true }),
    ("filter_next_day", { key := "filter_next_day", address := 1089, label := "FILTERNEXT_DAY", writable := true }),
    ("filter_next_month", { key := "filter_next_month", address := 1090, label := "FILTERNEXT_MONTH", writable := true }),
    ("filter_next_year", { key := "filter_next_year", address := 1091, label := "FILTERNEXT_YEAR", writable := true }) ]

/-- Embeds `const._build_registers_v1` (const.py lines 119-272). -/
def buildRegistersV1 : List (String × RegisterDefinition) :=
  dictOfLiteral registersV1Entries

/-- Embeds `const._build_registers_v2` (const.py lines 275-282): the source is a
placeholder that simply returns `_build_registers_v1()`. -/
def buildRegistersV2 : List (String × RegisterDefinition) :=
  buildRegistersV1

/-- Python `version.startswith("2.")`, embedded as a pattern match on the
underlying character list (so that it evaluates inside the kernel). -/
def startsWithTwoDot (v : String) : Bool :=
  match v.data with
  | '2' :: '.' :: _ => true
  | _ => false

/-- Embeds `const.get_registers_for_version` (const.py lines 285-298): selects the
catalog builder by `software_version.startswith("2.")`. -/
def getRegistersForVersion (softwareVersion : String) :
    List (String × RegisterDefinition) :=
  if startsWithTwoDot softwareVersion then buildRegistersV2 else buildRegistersV1

/-- The branch taken by `get_registers_for_version` (const.py line 294):
2 when the `_build_registers_v2` builder is invoked, 1 when
`_build_registers_v1` is.  This projection records which catalog family the
source selects, which is not observable from the returned dict alone because
the v2 builder currently returns the v1 map. -/
def catalogFamilyForVersion (softwareVersion : String) : Nat :=
  if startsWithTwoDot softwareVersion then 2 else 1

/-- Embeds `const.REGISTERS` (const.py line 302). -/
def REGISTERS : List (String × RegisterDefinition) :=
  buildRegistersV1

/-- Embeds `const.get_register_definition` (const.py lines 356-369): raises
`KeyError` (embedded as `Except.error`) when the key is absent from the
active catalog; the `registers` argument defaults to `REGISTERS` when
`None`. -/
def getRegisterDefinition (key : String)
    (registers : Option (List (String × RegisterDefinition)) := none) :
    Except String RegisterDefinition :=
  match dictGet (registers.getD REGISTERS) key with
  | some d => Except.ok d
  | none => Except.error ("Register " ++ key ++ " not defined")

/-- Sign adjustment applied to every raw word of a block read
(coordinator.py lines 381-385, likewise lines 418-420): a 16-bit word above
32767 is reinterpreted as its two's-complement negative. -/
def toSigned16 (raw : Int) : Int :=
  if raw > 32767 then raw - 65536 else raw

/-- Embeds `ParmairCoordinator._from_raw` (coordinator.py lines 436-442). -/
def fromRaw (d : RegisterDefinition) (raw : Int) : ℚ :=
  if d.scale = 1 then (raw : ℚ) else (raw : ℚ) * d.scale

/-- Decode of one raw transport word for one register definition: the sign
adjustment of `_read_register_block` (coordinator.py lines 381-385) composed
with the optional-register skip and `_from_raw` scaling of the block
consumers (coordinator.py lines 226-230, likewise lines 184-188 and
422-434).  `none` means the key is omitted from the published value map. -/
def decodeWord (d : RegisterDefinition) (w : Nat) : Option ℚ :=
  if d.optional = true ∧ toSigned16 w < 0 then none
  else some (fromRaw d (toSigned16 w))

/-- Python `int()` applied to a float: truncation toward zero
(`_to_raw`, coordinator.py line 449). -/
def pyInt (q : ℚ) : Int :=
  if 0 ≤ q then ⌊q⌋ else ⌈q⌉

/-- Python `round()` applied to a float: round half to even
(`_to_raw`, coordinator.py line 450). -/
def pyRound (q : ℚ) : Int :=
  if Int.fract q < 1/2 then ⌊q⌋
  else if 1/2 < Int.fract q then ⌊q⌋ + 1
  else if Even ⌊q⌋ then ⌊q⌋ else ⌊q⌋ + 1

/-- Embeds `ParmairCoordinator._to_raw` (coordinator.py lines 444-450). -/
def toRaw (d : RegisterDefinition) (value : ℚ) : Int :=
  if d.scale = 1 then pyInt value else pyRound (value / d.scale)

/-- One iteration state of the span loop of
`coordinator._build_read_ranges` (coordinator.py lines 76-83): `start` and
`count` describe the open span, `prev` is the previous address, and the list
argument is the remaining sorted addresses. -/
def spanLoop (maxRegisters start count prev : Nat) :
    List Nat → List (Nat × Nat)
  | [] => [(start, count)]
  | curr :: rest =>
      if curr = prev + 1 ∧ count < maxRegisters then
        spanLoop maxRegisters start (count + 1) curr rest
      else
        (start, count) :: spanLoop maxRegisters curr 1 curr rest

/-- Embeds `coordinator._build_read_ranges` (coordinator.py lines 57-84): groups the
keys of `address_to_definitions` into consecutive spans of at most
`maxRegisters` addresses.  Python's `sorted` is embedded as insertion sort
(any ascending sort). -/
def buildReadRanges (addressToDefinitions : List (Nat × List RegisterDefinition))
    (maxRegisters : Nat := 125) : List (Nat × Nat) :=
  match List.insertionSort (· ≤ ·) (addressToDefinitions.map Prod.fst) with
  | [] => []
  | a :: rest => spanLoop maxRegisters a 1 a rest

/-- Python `dict.setdefault(address, []).append(definition)` on an
address-keyed dict (coordinator.py lines 170-172 and 202-204). -/
def setdefaultAppend (m : List (Nat × List RegisterDefinition)) (a : Nat)
    (d : RegisterDefinition) : List (Nat × List RegisterDefinition) :=
  match m with
  | [] => [(a, [d])]
  | (k, v) :: rest =>
      if k = a then (k, v ++ [d]) :: rest else (k, v) :: setdefaultAppend rest a d

/-- The `address_to_definitions` dict built by the coordinator before
batching (coordinator.py lines 170-172 and 202-204): maps each address to
the list of definitions using it, in first-appearance order. -/
def buildAddressToDefinitions (defs : List RegisterDefinition) :
    List (Nat × List RegisterDefinition) :=
  defs.foldl (fun m d => setdefaultAppend m d.address d) []

/-- Lookup in an address-keyed dict (association list, first match). -/
def dictGetNat {α : Type} (m : List (Nat × α)) (a : Nat) : Option α :=
  match m with
  | [] => none
  | (k, v) :: rest => if k = a then some v else dictGetNat rest a

/-- One candidate set of the two-register consensus detection
(`config_flow._detect_device_info`, config_flow.py lines 97-110). -/
structure DetectionSet where
  firmware : String
  swAddress : Nat
  vmAddress : Nat
  swMin : ℚ
  swMax : ℚ
  deriving DecidableEq

/-- The `detection_sets` list (config_flow.py lines 97-110): firmware 2.xx is
tried before 1.xx. -/
def detectionSets : List DetectionSet :=
  [ { firmware := "2.xx", swAddress := 1015, vmAddress := 1125, swMin := 2, swMax := 299/100 },
    { firmware := "1.xx", swAddress := 1018, vmAddress := 1244, swMin := 1, swMax := 199/100 } ]

/-- The `sw_valid` test of one detection set (config_flow.py lines 171-183):
the version register read must return a value, the value must lie strictly
between 0 and 10000, and the scaled reading `raw * 0.01` must lie inside the
family's band.  `read` gives the outcome of `_read_register` per address
(`none` embeds both a failed read and a raised exception). -/
def swValid (read : Nat → Option Nat) (s : DetectionSet) : Bool :=
  match read s.swAddress with
  | none => false
  | some raw =>
      decide (0 < raw) && decide (raw < 10000) &&
        decide (s.swMin ≤ (raw : ℚ) * (1/100)) && decide ((raw : ℚ) * (1/100) ≤ s.swMax)

/-- The `vm_readable` test of one detection set (config_flow.py lines
187-197): the identity/model register read must return any value. -/
def vmReadable (read : Nat → Option Nat) (s : DetectionSet) : Bool :=
  (read s.vmAddress).isSome

/-- The detection loop over a list of candidate sets (config_flow.py lines
150-227): the first set whose two probes both succeed is confirmed, mapping
firmware "2.xx" to `SOFTWARE_VERSION_2` and anything else to
`SOFTWARE_VERSION_1`; if no set confirms, the function returns `none`
(config_flow.py lines 222-227), which makes the flow ask for manual
selection. -/
def detectLoop (read : Nat → Option Nat) : List DetectionSet → Option String
  | [] => none
  | s :: rest =>
      if swValid read s && vmReadable read s then
        some (if s.firmware = "2.xx" then SOFTWARE_VERSION_2 else SOFTWARE_VERSION_1)
      else
        detectLoop read rest

/-- The firmware-family outcome of `config_flow._detect_device_info`
(config_flow.py lines 97-227), as a function of the per-address register
read oracle. -/
def detectFirmware (read : Nat → Option Nat) : Option String :=
  detectLoop read detectionSets

/-- Outcome of one underlying pymodbus call in the compatibility shim
(pymodbus_compat.py): a normal return, a raised `TypeError` (the
convention-mismatch error), or any other raised exception. -/
inductive CallOutcome where
  | ok (response : Int)
  | typeError
  | otherError
  deriving DecidableEq

/-- Embeds `pymodbus_compat._READ_CANDIDATES` and `_WRITE_CANDIDATES`
(pymodbus_compat.py lines 26-27). -/
def KWARG_CANDIDATES : List String :=
  ["device_id", "slave", "unit"]

/-- The probe loop shared by `pymodbus_compat.read_holding_registers` (lines
40-51) and `pymodbus_compat.write_register` (lines 62-71): candidates are
tried in order; a `TypeError` moves to the next candidate; a normal return
caches the candidate and returns; any other exception propagates with the
cache still unset; when the list is exhausted the default "device_id" is
cached and the call is issued with it.  The result pairs the cache value
after the call with the call outcome. -/
def probeLoop (call : String → CallOutcome) :
    List String → Option String × CallOutcome
  | [] => (some "device_id", call "device_id")
  | kw :: rest =>
      match call kw with
      | CallOutcome.ok r => (some kw, CallOutcome.ok r)
      | CallOutcome.typeError => probeLoop call rest
      | CallOutcome.otherError => (none, CallOutcome.otherError)

/-- Embeds `pymodbus_compat.read_holding_registers` (pymodbus_compat.py lines
30-51) as a transition on the module-level `_read_kwarg` cache: with a
cached convention the call is issued directly with it; with an empty cache
the candidates are probed. -/
def readHoldingRegistersCompat (cache : Option String)
    (call : String → CallOutcome) : Option String × CallOutcome :=
  match cache with
  | some kw => (some kw, call kw)
  | none => probeLoop call KWARG_CANDIDATES

/-- Embeds `pymodbus_compat.write_register` (pymodbus_compat.py lines 54-71) as a
transition on the module-level `_write_kwarg` cache; the body is the same
probe-and-cache logic as the read side. -/
def writeRegisterCompat (cache : Option String)
    (call : String → CallOutcome) : Option String × CallOutcome :=
  match cache with
  | some kw => (some kw, call kw)
  | none => probeLoop call KWARG_CANDIDATES

/-- Outcome of the single-register device write issued by
`coordinator.write_register` (coordinator.py lines 287-302): a response
whose `isError()` is false, a response whose `isError()` is true, or a
raised exception. -/
inductive WriteOutcome where
  | success
  | errorResponse
  | exn
  deriving DecidableEq

/-- Environment of one `coordinator.write_register` call (coordinator.py
lines 274-310): whether the long-lived client is already connected, whether
`connect()` succeeds, and the device's reaction to a write of a raw value to
an address. -/
structure WriteEnv where
  connected : Bool
  connectOk : Bool
  writeResult : Nat → Int → WriteOutcome

/-- Embeds `coordinator.write_register` (coordinator.py lines 274-310).  The key
lookup (line 276) runs before the `try` block, so an unknown key propagates
as `Except.error`; everything inside the `try` maps to `Except.ok`: a failed
connect returns `False` (line 280), an error response returns `False` and a
normal response `True` (line 302), and any exception raised inside the block
is caught and returns `False` (lines 303-310). -/
def writeRegisterOp (env : WriteEnv)
    (registers : List (String × RegisterDefinition)) (key : String)
    (value : ℚ) : Except String Bool :=
  match getRegisterDefinition key (some registers) with
  | Except.error e => Except.error e
  | Except.ok d =>
      Except.ok
        (if env.connected = false ∧ env.connectOk = false then false
         else
           match env.writeResult d.address (toRaw d value) with
           | WriteOutcome.success => true
           | WriteOutcome.errorResponse => false
           | WriteOutcome.exn => false)

/-- Result of `coordinator._read_register_block` (coordinator.py lines
363-394) for one `(address, count)` request: the oracle gives the raw
16-bit words returned by the transport for the request (`none` embeds a
failed or error response and a raised exception, both of which the source
turns into `None`); a block of the wrong length is rejected (line 378) and
every word is sign-adjusted (lines 381-385). -/
def readRegisterBlock (oracle : Nat → Nat → Option (List Nat))
    (address count : Nat) : Option (List Int) :=
  match oracle address count with
  | none => none
  | some raws =>
      if raws.length = count then some (raws.map fun r => toSigned16 r) else none

/-- The retry loop around a block read (coordinator.py lines 174-178 and
208-212): the block is re-read up to 3 more times while it is `None`.  The
oracle is a function of the request, so a retry returns the same outcome as
the first attempt. -/
def retryBlock (oracle : Nat → Nat → Option (List Nat)) (address count : Nat) :
    Option (List Int) :=
  (List.range 3).foldl
    (fun b _ =>
      match b with
      | none => readRegisterBlock oracle address count
      | some x => some x)
    (readRegisterBlock oracle address count)

/-- Storing one successfully read static block into `_static_data`
(coordinator.py lines 179-193): for each word, every definition at that
address stores its scaled value, except an optional definition whose
adjusted raw value is negative. -/
def storeBlockStatic (addrToDefs : List (Nat × List RegisterDefinition))
    (start : Nat) (block : List Int) (sd : List (String × ℚ)) :
    List (String × ℚ) :=
  block.enum.foldl
    (fun sd (iraw : Nat × Int) =>
      match dictGetNat addrToDefs (start + iraw.1) with
      | none => sd
      | some defs =>
          defs.foldl
            (fun sd d =>
              if d.optional = true ∧ iraw.2 < 0 then sd
              else dictSet sd d.key (fromRaw d iraw.2))
            sd)
    sd

/-- The static-register section of `coordinator._read_modbus_data`
(coordinator.py lines 170-194): the static registers are grouped by address,
batched, each span is read with retries, and successful blocks are stored
into `_static_data`; a span that stays `None` is skipped. -/
def readStaticData (oracle : Nat → Nat → Option (List Nat))
    (staticRegisters : List RegisterDefinition) (sd : List (String × ℚ)) :
    List (String × ℚ) :=
  (buildReadRanges (buildAddressToDefinitions staticRegisters)).foldl
    (fun sd span =>
      match retryBlock oracle span.1 span.2 with
      | none => sd
      | some block => storeBlockStatic (buildAddressToDefinitions staticRegisters) span.1 block sd)
    sd

/-- Storing one successfully read dynamic block into the per-cycle `data`
map (coordinator.py lines 220-230): the first definition at each address
decides the optional skip and the scaling, and every definition sharing the
address receives the same value. -/
def storeBlockDynamic (addrToDefs : List (Nat × List RegisterDefinition))
    (start : Nat) (block : List Int) (data : List (String × ℚ)) :
    List (String × ℚ) :=
  block.enum.foldl
    (fun data (iraw : Nat × Int) =>
      match dictGetNat addrToDefs (start + iraw.1) with
      | none => data
      | some [] => data
      | some (d0 :: ds) =>
          if d0.optional = true ∧ iraw.2 < 0 then data
          else
            (d0 :: ds).foldl
              (fun data d => dictSet data d.key (fromRaw d0 iraw.2))
              data)
    data

/-- The dynamic-register section of `coordinator._read_modbus_data`
(coordinator.py lines 197-231): the polled registers are grouped by address,
batched and read span by span into a fresh map; a span that stays `None`
only adds to the logged failed-register list. -/
def readDynamicData (oracle : Nat → Nat → Option (List Nat))
    (pollRegisters : List RegisterDefinition) : List (String × ℚ) :=
  (buildReadRanges (buildAddressToDefinitions pollRegisters)).foldl
    (fun data span =>
      match retryBlock oracle span.1 span.2 with
      | none => data
      | some block => storeBlockDynamic (buildAddressToDefinitions pollRegisters) span.1 block data)
    []

/-- The `is_v2` test of the coordinator (coordinator.py lines 246-248). -/
def isV2Version (softwareVersion : String) : Bool :=
  decide (softwareVersion = SOFTWARE_VERSION_2) || startsWithTwoDot softwareVersion

/-- The v2 derived-state step of `coordinator._read_modbus_data`
(coordinator.py lines 243-256): for a v2 software version with a
`control_state` value present, the three binary state keys are recomputed
from it after the merge. -/
def applyDerivedStates (softwareVersion : String) (data : List (String × ℚ)) :
    List (String × ℚ) :=
  if isV2Version softwareVersion then
    match dictGet data "control_state" with
    | none => data
    | some us =>
        dictSet
          (dictSet (dictSet data "home_state" (if us = 2 then 1 else 0))
            "boost_state" (if us = 3 then 1 else 0))
          "overpressure_state" (if us = 4 ∨ us = 5 then 1 else 0)
  else data

/-- The mutable per-device poll state of the coordinator (coordinator.py
lines 122-124): the stored static data and the static-data-read flag. -/
structure PollState where
  staticData : List (String × ℚ)
  staticDataRead : Bool
  deriving DecidableEq

/-- The data-producing core of `coordinator._read_modbus_data`
(coordinator.py lines 167-265), from the point where the connection is
established: when the static-data-read flag is still false the static
registers are batch-read into `_static_data` and the flag is then set
(line 195, unconditionally); the dynamic registers are batch-read into a
fresh map; the stored static data is merged over it (line 241); and the v2
derived states are computed (lines 243-256).  Returns the new poll state and
the published value map. -/
def readModbusData (oracle : Nat → Nat → Option (List Nat))
    (softwareVersion : String)
    (staticRegisters pollRegisters : List RegisterDefinition)
    (s : PollState) : PollState × List (String × ℚ) :=
  let s1 :=
    if s.staticDataRead then s
    else
      { staticData := readStaticData oracle staticRegisters s.staticData,
        staticDataRead := true }
  let data := readDynamicData oracle pollRegisters
  let merged := dictUpdate data s1.staticData
  (s1, applyDerivedStates softwareVersion merged)

/-- The slave-identifier normalization of `ParmairCoordinator.__init__`
(coordinator.py lines 95-104): the stored value (defaulting to
`DEFAULT_SLAVE_ID` when absent) is replaced by 0 when it equals 1, and used
unchanged otherwise; the result is the `self.slave_id` passed to every
subsequent read (coordinator.py lines 152, 369, 400) and write
(coordinator.py lines 283, 288). -/
def initSlaveId (stored : Option Int) : Int :=
  if stored.getD DEFAULT_SLAVE_ID = 1 then 0 else stored.getD DEFAULT_SLAVE_ID

/-- The slave identifier that `config_flow.async_step_user` always writes
into the config entry (config_flow.py lines 348-350). -/
def configFlowStoredSlaveId : Int :=
  DEFAULT_SLAVE_ID

/-- Splits a character list on the dot character (Python `str.split(".")`). -/
def splitOnDot (cs : List Char) : List (List Char) :=
  match cs with
  | [] => [[]]
  | c :: rest =>
      if c = '.' then [] :: splitOnDot rest
      else
        match splitOnDot rest with
        | [] => [[c]]
        | g :: gs => (c :: g) :: gs

/-- Value of a list of decimal digit characters. -/
def digitsToNat (cs : List Char) : Nat :=
  cs.foldl (fun n c => 10 * n + (c.toNat - 48)) 0

/-- Modelled from the spec for the refinement claim about catalog selection:
the integer major component `int(float(version))` of a version string, for
the plain unsigned decimal forms (`"1.83"`, `"2"`, `"3.0"`, `"2."`, `".5"`)
that firmware version strings take; any other string (for which Python
`float()` raises, e.g. `"2.x"` or `"unknown"`) yields `none`. -/
def pyFloatMajor (v : String) : Option Nat :=
  match splitOnDot v.data with
  | [ip] => if ip ≠ [] ∧ ip.all Char.isDigit then some (digitsToNat ip) else none
  | [ip, fp] =>
      if ip.all Char.isDigit ∧ fp.all Char.isDigit ∧ ¬(ip = [] ∧ fp = []) then
        some (digitsToNat ip)
      else none
  | _ => none

/-- Modelled from the spec (spec.md section 4.1): the catalog family that
classification by integer major component would select — 2 when
`int(float(version))` is at least 2, and 1 otherwise or when the version
string is unparseable. -/
def specCatalogFamilyForVersion (v : String) : Nat :=
  match pyFloatMajor v with
  | some m => if 2 ≤ m then 2 else 1
  | none => 1

lemma pyRound_dist_le_half (q : ℚ) : |(pyRound q : ℚ) - q| ≤ 1/2 := by
  have h0 : (0 : ℚ) ≤ Int.fract q := Int.fract_nonneg q
  have h1 : Int.fract q < 1 := Int.fract_lt_one q
  have hq : q - (⌊q⌋ : ℚ) = Int.fract q := Int.self_sub_floor q
  unfold pyRound
  split_ifs with ha hb hc
  · rw [abs_sub_comm, abs_of_nonneg (by linarith)]
    linarith
  · push_cast
    rw [abs_of_nonneg (by linarith)]
    linarith
  · rw [abs_sub_comm, abs_of_nonneg (by linarith)]
    linarith
  · push_cast
    rw [abs_of_nonneg (by linarith)]
    linarith

/-- C1: for every raw 16-bit word, a value above 32767 is first reinterpreted
as its two's-complement negative; an optional register whose adjusted value
is negative decodes to absent; otherwise the decoded value is the adjusted
raw value times the scale, the adjusted raw value itself for scale 1. -/
theorem decode_adjusts_twos_complement_and_scales
    (d : RegisterDefinition) (w : Nat) (hw : w ≤ 65535) :
    (32767 < w → toSigned16 w = (w : Int) - 65536)
    ∧ (w ≤ 32767 → toSigned16 w = (w : Int))
    ∧ (decodeWord d w = none ↔ d.optional = true ∧ toSigned16 w < 0)
    ∧ (∀ q : ℚ, decodeWord d w = some q → q = (toSigned16 w : ℚ) * d.scale)
    ∧ (d.scale = 1 → ¬(d.optional = true ∧ toSigned16 w < 0) →
        decodeWord d w = some ((toSigned16 w : Int) : ℚ)) := by
  refine ⟨?_, ?_, ?_, ?_, ?_⟩
  · intro h
    unfold toSigned16
    rw [if_pos (by exact_mod_cast h)]
  · intro h
    unfold toSigned16
    rw [if_neg (by omega)]
  · unfold decodeWord
    split_ifs with hc
    · simp [hc]
    · simp [hc]
  · intro q hq
    unfold decodeWord at hq
    split_ifs at hq with hc
    have hval := Option.some.inj hq
    unfold fromRaw at hval
    split_ifs at hval with hs
    · rw [← hval, hs, mul_one]
    · rw [← hval]
  · intro hs hno
    unfold decodeWord
    rw [if_neg hno]
    unfold fromRaw
    rw [if_pos hs]

/-- Witness for C1 at the optional humidity register and raw word 65535
(adjusted value -1, decoded as absent). -/
theorem decode_adjusts_twos_complement_and_scales_witness :
    (65535 : Nat) ≤ 65535
    ∧ decodeWord { key := "humidity", address := 1180, label := "MEXX_FM", optional := true } 65535 = none := by
  refine ⟨by decide, ?_⟩
  exact (decode_adjusts_twos_complement_and_scales
    { key := "humidity", address := 1180, label := "MEXX_FM", optional := true }
    65535 (by decide)).2.2.1.mpr (by decide)

/-- C9: the encode step divides by the scale and rounds to the nearest
integer (within one half), a scale-1 register passes through as an integer
cast, and value 21.5 at scale 0.5 encodes to 43. -/
theorem encode_rounds_to_nearest (d : RegisterDefinition) (v : ℚ) :
    (d.scale ≠ 1 → toRaw d v = pyRound (v / d.scale)
        ∧ |(toRaw d v : ℚ) - v / d.scale| ≤ 1/2)
    ∧ (d.scale = 1 → toRaw d v = pyInt v)
    ∧ toRaw { key := "test_half_scale", address := 1060, label := "TE30_S", scale := 1/2, writable := true } (43/2) = 43 := by
  refine ⟨?_, ?_, ?_⟩
  · intro hs
    unfold toRaw
    rw [if_neg hs]
    exact ⟨rfl, pyRound_dist_le_half _⟩
  · intro hs
    unfold toRaw
    rw [if_pos hs]
  · show (if (1/2 : ℚ) = 1 then pyInt (43/2) else pyRound ((43/2) / (1/2))) = 43
    rw [if_neg (by norm_num)]
    have hdiv : ((43 : ℚ)/2) / (1/2) = ((43 : Int) : ℚ) := by norm_num
    rw [hdiv]
    unfold pyRound
    rw [Int.fract_intCast]
    rw [if_pos (by norm_num)]
    rw [Int.floor_intCast]

/-- Witness for C9 at a register with scale 0.5 and value 21.5. -/
theorem encode_rounds_to_nearest_witness :
    toRaw { key := "test_half_scale", address := 1060, label := "TE30_S", scale := 1/2, writable := true } (43/2)
      = pyRound ((43/2) / ((1:ℚ)/2)) :=
  ((encode_rounds_to_nearest
    { key := "test_half_scale", address := 1060, label := "TE30_S", scale := 1/2, writable := true }
    (43/2)).1 (by norm_num)).1

/-- C10: the stored default slave identifier is 1 and is what the config
flow always writes; a stored identifier equal to 1 (or an absent one, which
defaults to 1) is normalized to 0 at coordinator construction, and every
other stored value is used unchanged. -/
theorem slave_id_normalization :
    DEFAULT_SLAVE_ID = 1
    ∧ configFlowStoredSlaveId = DEFAULT_SLAVE_ID
    ∧ initSlaveId (some configFlowStoredSlaveId) = 0
    ∧ initSlaveId none = 0
    ∧ ∀ v : Int, v ≠ 1 → initSlaveId (some v) = v := by
  refine ⟨rfl, rfl, rfl, rfl, ?_⟩
  intro v hv
  unfold initSlaveId
  simp [hv]

/-- Witness for C10 at stored identifier 7. -/
theorem slave_id_normalization_witness :
    (7 : Int) ≠ 1 ∧ initSlaveId (some 7) = 7 :=
  ⟨by decide, slave_id_normalization.2.2.2.2 7 (by decide)⟩

/-- C4 counterexample: at the stored v2 version string "2.x" (which Python
float() cannot parse), classification by integer major component selects the
v1 catalog, but the code selects the v2 builder because the string starts
with "2.". -/
theorem catalog_selection_spec_mismatch :
    catalogFamilyForVersion "2.x" ≠ specCatalogFamilyForVersion "2.x"
    ∧ pyFloatMajor "2.x" = none
    ∧ specCatalogFamilyForVersion "2.x" = 1
    ∧ catalogFamilyForVersion "2.x" = 2 := by
  refine ⟨by decide, by decide, by decide, by decide⟩

/-- C4 (amended): catalog selection classifies the version string by the
literal prefix "2.": exactly the strings starting with "2." select the v2
builder and all others the v1 builder; and because the v2 builder is a
placeholder returning the v1 map, the returned catalog equals the v1
catalog for every version string. -/
theorem catalog_selection_two_dot_rule (v : String) :
    (catalogFamilyForVersion v = 2 ↔ startsWithTwoDot v = true)
    ∧ (catalogFamilyForVersion v = 1 ↔ startsWithTwoDot v = false)
    ∧ getRegistersForVersion v = buildRegistersV1
    ∧ (startsWithTwoDot v = true → getRegistersForVersion v = buildRegistersV2) := by
  unfold catalogFamilyForVersion getRegistersForVersion buildRegistersV2
  cases h : startsWithTwoDot v <;> simp [h]

/-- Witness for C4 (amended) at the version string "2.31". -/
theorem catalog_selection_two_dot_rule_witness :
    catalogFamilyForVersion "2.31" = 2
    ∧ getRegistersForVersion "2.31" = buildRegistersV2 :=
  ⟨(catalog_selection_two_dot_rule "2.31").1.mpr (by decide),
   (catalog_selection_two_dot_rule "2.31").2.2.2 (by decide)⟩

/-- C5: the catalog the code returns for the v2 software version carries the
v1 addresses: power at 1208 and control-state at 1185, identical to the v1
catalog, instead of the documented v2 addresses 1180 and 1181 asserted by
the repository's own tests (tests/test_interpretation.py lines 377-389). -/
theorem v2_catalog_returns_v1_addresses :
    ((dictGet (getRegistersForVersion SOFTWARE_VERSION_2) "power").map
        (fun d => d.address)) = some 1208
    ∧ ((dictGet (getRegistersForVersion SOFTWARE_VERSION_2) "control_state").map
        (fun d => d.address)) = some 1185
    ∧ ((dictGet (getRegistersForVersion SOFTWARE_VERSION_1) "power").map
        (fun d => d.address)) = some 1208
    ∧ ((dictGet (getRegistersForVersion SOFTWARE_VERSION_1) "control_state").map
        (fun d => d.address)) = some 1185
    ∧ getRegistersForVersion SOFTWARE_VERSION_2 = getRegistersForVersion SOFTWARE_VERSION_1 := by
  refine ⟨rfl, rfl, rfl, rfl, rfl⟩

/-- The 2.xx candidate of `detection_sets` (config_flow.py lines 98-103). -/
def detectionSet2xx : DetectionSet :=
  { firmware := "2.xx", swAddress := 1015, vmAddress := 1125, swMin := 2, swMax := 299/100 }

/-- The 1.xx candidate of `detection_sets` (config_flow.py lines 104-109). -/
def detectionSet1xx : DetectionSet :=
  { firmware := "1.xx", swAddress := 1018, vmAddress := 1244, swMin := 1, swMax := 199/100 }

/-- C3: firmware detection confirms a family only when both of its probe
reads succeed (version value present, inside the 0..10000 guard and the
family band; identity value present); families are tried 2.xx before 1.xx
and detection stops at the first confirmation; when no candidate has both
probes succeeding, detection returns none (manual selection), never a
guessed family. -/
theorem firmware_detection_two_register_consensus (read : Nat → Option Nat) :
    detectionSets = [detectionSet2xx, detectionSet1xx]
    ∧ (detectFirmware read =
        if swValid read detectionSet2xx && vmReadable read detectionSet2xx then
          some SOFTWARE_VERSION_2
        else if swValid read detectionSet1xx && vmReadable read detectionSet1xx then
          some SOFTWARE_VERSION_1
        else none)
    ∧ ((∀ s ∈ detectionSets, ¬(swValid read s = true ∧ vmReadable read s = true)) →
        detectFirmware read = none)
    ∧ (∀ s : DetectionSet, swValid read s = true →
        ∃ raw, read s.swAddress = some raw ∧ 0 < raw ∧ raw < 10000
          ∧ s.swMin ≤ (raw : ℚ) * (1/100) ∧ (raw : ℚ) * (1/100) ≤ s.swMax) := by
  refine ⟨rfl, ?_, ?_, ?_⟩
  · show detectLoop read [detectionSet2xx, detectionSet1xx] = _
    have hA : (if detectionSet2xx.firmware = "2.xx" then SOFTWARE_VERSION_2
        else SOFTWARE_VERSION_1) = SOFTWARE_VERSION_2 := by
      rw [if_pos (by decide)]
    have hB : (if detectionSet1xx.firmware = "2.xx" then SOFTWARE_VERSION_2
        else SOFTWARE_VERSION_1) = SOFTWARE_VERSION_1 := by
      rw [if_neg (by decide)]
    simp only [detectLoop, hA, hB]
  · intro h
    have hmem2 : detectionSet2xx ∈ detectionSets := by
      rw [show detectionSets = [detectionSet2xx, detectionSet1xx] from rfl]
      exact List.mem_cons_self _ _
    have hmem1 : detectionSet1xx ∈ detectionSets := by
      rw [show detectionSets = [detectionSet2xx, detectionSet1xx] from rfl]
      exact List.mem_cons_of_mem _ (List.mem_cons_self _ _)
    have h2 := h detectionSet2xx hmem2
    have h1 := h detectionSet1xx hmem1
    have e2 : (swValid read detectionSet2xx && vmReadable read detectionSet2xx) = false := by
      cases hv : swValid read detectionSet2xx <;> cases hm : vmReadable read detectionSet2xx <;>
        simp_all
    have e1 : (swValid read detectionSet1xx && vmReadable read detectionSet1xx) = false := by
      cases hv : swValid read detectionSet1xx <;> cases hm : vmReadable read detectionSet1xx <;>
        simp_all
    show detectLoop read [detectionSet2xx, detectionSet1xx] = none
    simp [detectLoop, e1, e2]
  · intro s hs
    unfold swValid at hs
    cases hr : read s.swAddress with
    | none => rw [hr] at hs; exact absurd hs (by simp)
    | some raw =>
        rw [hr] at hs
        simp only [Bool.and_eq_true, decide_eq_true_eq] at hs
        exact ⟨raw, rfl, hs.1.1.1, hs.1.1.2, hs.1.2, hs.2⟩

/-- Witness for C3 at the oracle on which every register read fails. -/
theorem firmware_detection_two_register_consensus_witness :
    detectFirmware (fun _ => none) = none :=
  (firmware_detection_two_register_consensus (fun _ => none)).2.2.1 (by decide)

/-- C7: the write operation reports success or failure as a boolean and never
raises for ordinary communication failure — a failed connection, an error
response and a raised transport exception all yield a false return — while an
unknown register key raises (is returned as an error, never converted to a
false return). -/
theorem write_register_error_contract (env : WriteEnv)
    (registers : List (String × RegisterDefinition)) (key : String) (value : ℚ) :
    ((dictGet registers key).isSome = true →
        ∃ b : Bool, writeRegisterOp env registers key value = Except.ok b)
    ∧ (dictGet registers key = none →
        writeRegisterOp env registers key value
            = Except.error ("Register " ++ key ++ " not defined")
          ∧ ∀ b : Bool, writeRegisterOp env registers key value ≠ Except.ok b)
    ∧ (∀ d, dictGet registers key = some d →
        (env.connected = false ∧ env.connectOk = false →
            writeRegisterOp env registers key value = Except.ok false)
        ∧ (¬(env.connected = false ∧ env.connectOk = false) →
            env.writeResult d.address (toRaw d value) = WriteOutcome.errorResponse →
            writeRegisterOp env registers key value = Except.ok false)
        ∧ (¬(env.connected = false ∧ env.connectOk = false) →
            env.writeResult d.address (toRaw d value) = WriteOutcome.exn →
            writeRegisterOp env registers key value = Except.ok false)
        ∧ (¬(env.connected = false ∧ env.connectOk = false) →
            env.writeResult d.address (toRaw d value) = WriteOutcome.success →
            writeRegisterOp env registers key value = Except.ok true)) := by
  refine ⟨?_, ?_, ?_⟩
  · intro hsome
    cases hd : dictGet registers key with
    | none => rw [hd] at hsome; exact absurd hsome (by simp)
    | some d =>
        refine ⟨if env.connected = false ∧ env.connectOk = false then false
          else
            match env.writeResult d.address (toRaw d value) with
            | WriteOutcome.success => true
            | WriteOutcome.errorResponse => false
            | WriteOutcome.exn => false, ?_⟩
        unfold writeRegisterOp getRegisterDefinition
        simp only [Option.getD_some, hd]
  · intro hnone
    have he : writeRegisterOp env registers key value
        = Except.error ("Register " ++ key ++ " not defined") := by
      unfold writeRegisterOp getRegisterDefinition
      simp only [Option.getD_some, hnone]
    exact ⟨he, fun b h => by rw [he] at h; exact Except.noConfusion h⟩
  · intro d hd
    have hb : writeRegisterOp env registers key value
        = Except.ok
            (if env.connected = false ∧ env.connectOk = false then false
             else
               match env.writeResult d.address (toRaw d value) with
               | WriteOutcome.success => true
               | WriteOutcome.errorResponse => false
               | WriteOutcome.exn => false) := by
      unfold writeRegisterOp getRegisterDefinition
      simp only [Option.getD_some, hd]
    refine ⟨?_, ?_, ?_, ?_⟩
    · intro hc
      rw [hb, if_pos hc]
    · intro hc hw
      rw [hb, if_neg hc, hw]
    · intro hc hw
      rw [hb, if_neg hc, hw]
    · intro hc hw
      rw [hb, if_neg hc, hw]

/-- Witness for C7: a disconnected environment yields a false return for the
known key "power", and the unknown key "no_such_register" yields an error. -/
theorem write_register_error_contract_witness :
    writeRegisterOp
        { connected := false, connectOk := false, writeResult := fun _ _ => WriteOutcome.success }
        REGISTERS "power" 3 = Except.ok false
    ∧ writeRegisterOp
        { connected := false, connectOk := false, writeResult := fun _ _ => WriteOutcome.success }
        REGISTERS "no_such_register" 3
        = Except.error ("Register " ++ "no_such_register" ++ " not defined") := by
  constructor
  · exact ((write_register_error_contract
      { connected := false, connectOk := false, writeResult := fun _ _ => WriteOutcome.success }
      REGISTERS "power" 3).2.2
      { key := "power", address := 1208, label := "POWER_BTN_FI", writable := true }
      rfl).1 ⟨rfl, rfl⟩
  · exact ((write_register_error_contract
      { connected := false, connectOk := false, writeResult := fun _ _ => WriteOutcome.success }
      REGISTERS "no_such_register" 3).2.1 rfl).1

/-- A call oracle on which the first probed convention raises an exception
other than the mismatch `TypeError`. -/
def otherErrorFirstCall : String → CallOutcome :=
  fun kw => if kw = "device_id" then CallOutcome.otherError else CallOutcome.ok 0

/-- C8 counterexample: on `otherErrorFirstCall` the first candidate that does
not raise the convention-mismatch error is "device_id", yet after the call
the cache is still empty (the exception propagates before the cache
assignment), so the first non-mismatching candidate is not cached. -/
theorem shim_cache_counterexample :
    KWARG_CANDIDATES.find? (fun kw => decide (otherErrorFirstCall kw ≠ CallOutcome.typeError))
        = some "device_id"
    ∧ (readHoldingRegistersCompat none otherErrorFirstCall).1 = none
    ∧ (readHoldingRegistersCompat none otherErrorFirstCall).1 ≠ some "device_id" := by
  refine ⟨by decide, by decide, by decide⟩

/-- C8 (amended): with a cached convention every call uses it directly and
leaves the cache unchanged (so the cache is set at most once); with an empty
cache the candidates are probed in order, a mismatch error skips to the next
candidate, the first candidate that returns normally is cached, a candidate
raising any other error propagates it and leaves the cache unset, and when
every candidate raises the mismatch error the default "device_id" is cached
and the call is issued with it, surfacing its outcome. -/
theorem shim_convention_cache_behavior (call : String → CallOutcome) :
    (∀ kw, readHoldingRegistersCompat (some kw) call = (some kw, call kw))
    ∧ (∀ kw, writeRegisterCompat (some kw) call = (some kw, call kw))
    ∧ ((∀ kw ∈ KWARG_CANDIDATES, call kw = CallOutcome.typeError) →
        readHoldingRegistersCompat none call = (some "device_id", call "device_id")
          ∧ writeRegisterCompat none call = (some "device_id", call "device_id"))
    ∧ (∀ kw rest r, call kw = CallOutcome.ok r →
        probeLoop call (kw :: rest) = (some kw, CallOutcome.ok r))
    ∧ (∀ kw rest, call kw = CallOutcome.otherError →
        probeLoop call (kw :: rest) = (none, CallOutcome.otherError))
    ∧ (∀ kw rest, call kw = CallOutcome.typeError →
        probeLoop call (kw :: rest) = probeLoop call rest)
    ∧ readHoldingRegistersCompat none call = probeLoop call KWARG_CANDIDATES
    ∧ writeRegisterCompat none call = probeLoop call KWARG_CANDIDATES := by
  refine ⟨fun kw => rfl, fun kw => rfl, ?_, ?_, ?_, ?_, rfl, rfl⟩
  · intro h
    have h1 := h "device_id" (by simp [KWARG_CANDIDATES])
    have h2 := h "slave" (by simp [KWARG_CANDIDATES])
    have h3 := h "unit" (by simp [KWARG_CANDIDATES])
    constructor <;>
      · show probeLoop call ["device_id", "slave", "unit"] = _
        simp [probeLoop, h1, h2, h3]
  · intro kw rest r hw
    simp [probeLoop, hw]
  · intro kw rest hw
    simp [probeLoop, hw]
  · intro kw rest hw
    simp [probeLoop, hw]

/-- Witness for C8 (amended) at the oracle on which every convention raises
the mismatch error. -/
theorem shim_convention_cache_behavior_witness :
    readHoldingRegistersCompat none (fun _ => CallOutcome.typeError)
      = (some "device_id", CallOutcome.typeError) :=
  ((shim_convention_cache_behavior (fun _ => CallOutcome.typeError)).2.2.1
    (by decide)).1

/-- The read-block oracle on which every transport request fails. -/
def failOracle : Nat → Nat → Option (List Nat) :=
  fun _ _ => none

/-- C6 counterexample: on a first poll cycle in which every static span read
fails (all retries return nothing, so no static register is successfully
read), the static-data-read flag is nevertheless set, permanently, while the
stored static data stays empty — the flag is not set only on success. -/
theorem poll_static_flag_set_without_success :
    (∀ a c, failOracle a c = none)
    ∧ (readModbusData failOracle SOFTWARE_VERSION_1
        [{ key := "software_version", address := 1018, label := "MULTI_SW_VER", scale := 1/100 }]
        [] { staticData := [], staticDataRead := false }).1.staticDataRead = true
    ∧ (readModbusData failOracle SOFTWARE_VERSION_1
        [{ key := "software_version", address := 1018, label := "MULTI_SW_VER", scale := 1/100 }]
        [] { staticData := [], staticDataRead := false }).1.staticData = [] := by
  exact ⟨fun a c => rfl, rfl, rfl⟩

/-- C6 (amended): static registers are batch-read only on a cycle in which
the static-data-read flag is still false (a cycle with the flag set leaves
the state untouched); the flag is set after the first cycle that reaches the
static-read section, regardless of per-span success, and stays set; and
every cycle publishes the merge of the transient dynamic read results with
the stored static data (static entries overriding), followed for v2 versions
by the derived-state recomputation. -/
theorem poll_static_once_and_merge (oracle : Nat → Nat → Option (List Nat))
    (ver : String) (staticRegs pollRegs : List RegisterDefinition) (s : PollState) :
    (s.staticDataRead = true →
        readModbusData oracle ver staticRegs pollRegs s
          = (s, applyDerivedStates ver
              (dictUpdate (readDynamicData oracle pollRegs) s.staticData)))
    ∧ (s.staticDataRead = false →
        (readModbusData oracle ver staticRegs pollRegs s).1
          = { staticData := readStaticData oracle staticRegs s.staticData,
              staticDataRead := true })
    ∧ (readModbusData oracle ver staticRegs pollRegs s).1.staticDataRead = true
    ∧ (readModbusData oracle ver staticRegs pollRegs s).2
        = applyDerivedStates ver
            (dictUpdate (readDynamicData oracle pollRegs)
              (readModbusData oracle ver staticRegs pollRegs s).1.staticData)
    ∧ (isV2Version ver = false →
        (readModbusData oracle ver staticRegs pollRegs s).2
          = dictUpdate (readDynamicData oracle pollRegs)
              (readModbusData oracle ver staticRegs pollRegs s).1.staticData) := by
  refine ⟨?_, ?_, ?_, ?_, ?_⟩
  · intro h
    unfold readModbusData
    rw [if_pos h]
  · intro h
    unfold readModbusData
    rw [if_neg (by rw [h]; exact Bool.false_ne_true)]
  · unfold readModbusData
    cases h : s.staticDataRead with
    | true => rw [if_pos rfl]; exact h
    | false => rw [if_neg Bool.false_ne_true]
  · unfold readModbusData
    cases h : s.staticDataRead with
    | true => rw [if_pos rfl]
    | false => rw [if_neg Bool.false_ne_true]
  · intro hv
    unfold readModbusData applyDerivedStates
    rw [hv]
    cases h : s.staticDataRead with
    | true => rw [if_pos rfl]; simp
    | false => rw [if_neg Bool.false_ne_true]; simp

/-- Witness for C6 (amended): a cycle that starts with the flag already set
leaves the poll state unchanged. -/
theorem poll_static_once_and_merge_witness :
    (readModbusData failOracle SOFTWARE_VERSION_1 [] []
        { staticData := [("hardware_type", 100)], staticDataRead := true }).1
      = { staticData := [("hardware_type", 100)], staticDataRead := true } := by
  rw [(poll_static_once_and_merge failOracle SOFTWARE_VERSION_1 [] []
    { staticData := [("hardware_type", 100)], staticDataRead := true }).1 rfl]

lemma spanLoop_flatMap (maxRegisters : Nat) (hmax : 1 ≤ maxRegisters) :
    ∀ (rest : List Nat) (start count prev : Nat),
      1 ≤ count → count ≤ maxRegisters → prev + 1 = start + count →
      List.Chain' (· < ·) (prev :: rest) →
      (spanLoop maxRegisters start count prev rest).flatMap
          (fun p => List.range' p.1 p.2) = List.range' start count ++ rest := by
  intro rest
  induction rest with
  | nil =>
      intro start count prev h1 h2 h3 h4
      simp [spanLoop]
  | cons curr rest ih =>
      intro start count prev h1 h2 h3 h4
      simp only [spanLoop]
      split_ifs with hc
      · obtain ⟨hc1, hc2⟩ := hc
        rw [ih start (count + 1) curr (by omega) (by omega) (by omega) h4.tail]
        rw [List.range'_concat]
        simp only [one_mul]
        rw [show start + count = curr from by omega]
        simp [List.append_assoc]
      · rw [List.flatMap_cons]
        rw [ih curr 1 curr le_rfl hmax rfl h4.tail]
        simp [List.range'_one]

lemma spanLoop_count_bounds (maxRegisters : Nat) :
    ∀ (rest : List Nat) (start count prev : Nat),
      1 ≤ count → count ≤ maxRegisters →
      ∀ p ∈ spanLoop maxRegisters start count prev rest,
        1 ≤ p.2 ∧ p.2 ≤ maxRegisters := by
  intro rest
  induction rest with
  | nil =>
      intro start count prev h1 h2 p hp
      simp only [spanLoop, List.mem_singleton] at hp
      rw [hp]
      exact ⟨h1, h2⟩
  | cons curr rest ih =>
      intro start count prev h1 h2 p hp
      simp only [spanLoop] at hp
      split_ifs at hp with hc
      · exact ih start (count + 1) curr (by omega) (by omega) p hp
      · rcases List.mem_cons.mp hp with h | h
        · rw [h]
          exact ⟨h1, h2⟩
        · exact ih curr 1 curr le_rfl (by omega) p h

lemma spanLoop_head_start (maxRegisters : Nat) :
    ∀ (rest : List Nat) (start count prev : Nat),
      ∃ c, (spanLoop maxRegisters start count prev rest).head? = some (start, c) := by
  intro rest
  induction rest with
  | nil =>
      intro start count prev
      exact ⟨count, rfl⟩
  | cons curr rest ih =>
      intro start count prev
      simp only [spanLoop]
      split_ifs with hc
      · exact ih start (count + 1) curr
      · exact ⟨count, rfl⟩

lemma spanLoop_chain (maxRegisters : Nat) :
    ∀ (rest : List Nat) (start count prev : Nat),
      prev + 1 = start + count →
      List.Chain' (· < ·) (prev :: rest) →
      List.Chain' (fun p q : Nat × Nat => p.1 + p.2 ≤ q.1)
        (spanLoop maxRegisters start count prev rest) := by
  intro rest
  induction rest with
  | nil =>
      intro start count prev h3 h4
      simp only [spanLoop]
      exact List.chain'_singleton _
  | cons curr rest ih =>
      intro start count prev h3 h4
      have hlt : prev < curr := (List.chain'_cons.mp h4).1
      simp only [spanLoop]
      split_ifs with hc
      · exact ih start (count + 1) curr (by omega) h4.tail
      · rw [List.chain'_cons']
        constructor
        · intro y hy
          obtain ⟨c, hcc⟩ := spanLoop_head_start maxRegisters rest curr 1 curr
          rw [hcc] at hy
          simp only [Option.mem_def, Option.some.injEq] at hy
          rw [← hy]
          show start + count ≤ curr
          omega
        · exact ih curr 1 curr rfl h4.tail

lemma insertionSort_chain_of_nodup (l : List Nat) (h : l.Nodup) :
    List.Chain' (· < ·) (List.insertionSort (· ≤ ·) l) := by
  have hs : List.Sorted (· ≤ ·) (List.insertionSort (· ≤ ·) l) :=
    List.sorted_insertionSort _ l
  have hperm : (List.insertionSort (· ≤ ·) l).Perm l := List.perm_insertionSort _ l
  have hnd : (List.insertionSort (· ≤ ·) l).Nodup := hperm.symm.nodup h
  have hp : List.Pairwise (· < ·) (List.insertionSort (· ≤ ·) l) := by
    have hand := List.Pairwise.and hs hnd
    exact hand.imp fun hab => lt_of_le_of_ne hab.1 hab.2
  exact List.chain'_iff_pairwise.mpr hp

lemma setdefaultAppend_keys (m : List (Nat × List RegisterDefinition)) (a : Nat)
    (d : RegisterDefinition) :
    (setdefaultAppend m a d).map Prod.fst
      = if a ∈ m.map Prod.fst then m.map Prod.fst else m.map Prod.fst ++ [a] := by
  induction m with
  | nil => simp [setdefaultAppend]
  | cons kv rest ih =>
      obtain ⟨k, v⟩ := kv
      simp only [setdefaultAppend]
      by_cases hk : k = a
      · rw [if_pos hk]
        subst hk
        simp
      · rw [if_neg hk]
        simp only [List.map_cons, ih]
        by_cases hm : a ∈ rest.map Prod.fst
        · simp [hm, hk, Ne.symm hk]
        · simp [hm, hk, Ne.symm hk]

lemma buildAddressToDefinitions_keys_nodup (defs : List RegisterDefinition) :
    ((buildAddressToDefinitions defs).map Prod.fst).Nodup := by
  suffices h : ∀ (m : List (Nat × List RegisterDefinition)), (m.map Prod.fst).Nodup →
      ((defs.foldl (fun m d => setdefaultAppend m d.address d) m).map Prod.fst).Nodup from
    h [] (by simp)
  induction defs with
  | nil => intro m hm; exact hm
  | cons d rest ih =>
      intro m hm
      simp only [List.foldl_cons]
      apply ih
      rw [setdefaultAppend_keys]
      split_ifs with hmem
      · exact hm
      · rw [List.nodup_append]
        exact ⟨hm, List.nodup_singleton _, by simp [List.disjoint_singleton, hmem]⟩

/-- The registers of batching scenario C: addresses 1020, 1021, 1022, 1024. -/
def scenarioCDefs : List RegisterDefinition :=
  [ { key := "fresh_air_temp", address := 1020, label := "TE01_M", scale := 1/10 },
    { key := "r1021", address := 1021, label := "R1021" },
    { key := "supply_after_recovery_temp", address := 1022, label := "TE05_M", scale := 1/10 },
    { key := "exhaust_temp", address := 1024, label := "TE30_M", scale := 1/10 } ]

/-- Two register keys sharing one address (the v2 USERSTATECONTROL quirk). -/
def sharedAddressDefs : List RegisterDefinition :=
  [ { key := "control_state", address := 1181, label := "USERSTATECONTROL_FO", writable := true },
    { key := "home_state", address := 1181, label := "USERSTATECONTROL_FO" } ]

/-- C2: for the address dict the coordinator builds from any register list
and any positive maximum span length, the concatenation of the address
ranges of the returned spans is exactly the ascending sorted list of the
distinct input addresses (so every input address is covered by exactly one
span, spans contain only contiguous input addresses, and spans are sorted
and non-overlapping, which the chain conjunct states again directly); every
span count is between 1 and the maximum; an empty input yields no spans; an
address shared by two register keys produces one covering span; and the
addresses 1020, 1021, 1022, 1024 with maximum 125 batch into
[(1020, 3), (1024, 1)]. -/
theorem build_read_ranges_partition (defs : List RegisterDefinition)
    (maxRegisters : Nat) (hmax : 1 ≤ maxRegisters) :
    ((buildReadRanges (buildAddressToDefinitions defs) maxRegisters).flatMap
        (fun p => List.range' p.1 p.2))
      = List.insertionSort (· ≤ ·) ((buildAddressToDefinitions defs).map Prod.fst)
    ∧ (∀ p ∈ buildReadRanges (buildAddressToDefinitions defs) maxRegisters,
        1 ≤ p.2 ∧ p.2 ≤ maxRegisters)
    ∧ List.Chain' (fun p q : Nat × Nat => p.1 + p.2 ≤ q.1)
        (buildReadRanges (buildAddressToDefinitions defs) maxRegisters)
    ∧ (∀ a : Nat,
        (a ∈ (buildReadRanges (buildAddressToDefinitions defs) maxRegisters).flatMap
            (fun p => List.range' p.1 p.2))
          ↔ a ∈ (buildAddressToDefinitions defs).map Prod.fst)
    ∧ (defs = [] → buildReadRanges (buildAddressToDefinitions defs) maxRegisters = [])
    ∧ buildReadRanges (buildAddressToDefinitions scenarioCDefs) 125 = [(1020, 3), (1024, 1)]
    ∧ buildReadRanges (buildAddressToDefinitions sharedAddressDefs) 125 = [(1181, 1)] := by
  have hch : List.Chain' (· < ·)
      (List.insertionSort (· ≤ ·) ((buildAddressToDefinitions defs).map Prod.fst)) :=
    insertionSort_chain_of_nodup _ (buildAddressToDefinitions_keys_nodup defs)
  have hflat : ((buildReadRanges (buildAddressToDefinitions defs) maxRegisters).flatMap
      (fun p => List.range' p.1 p.2))
      = List.insertionSort (· ≤ ·) ((buildAddressToDefinitions defs).map Prod.fst) := by
    unfold buildReadRanges
    cases hsk : List.insertionSort (· ≤ ·) ((buildAddressToDefinitions defs).map Prod.fst) with
    | nil => simp
    | cons a rest =>
        rw [hsk] at hch
        rw [spanLoop_flatMap maxRegisters hmax rest a 1 a le_rfl hmax rfl hch]
        simp [List.range'_one]
  refine ⟨hflat, ?_, ?_, ?_, ?_, ?_, ?_⟩
  · intro p hp
    unfold buildReadRanges at hp
    cases hsk : List.insertionSort (· ≤ ·) ((buildAddressToDefinitions defs).map Prod.fst) with
    | nil => rw [hsk] at hp; exact absurd hp (by simp)
    | cons a rest =>
        rw [hsk] at hp
        exact spanLoop_count_bounds maxRegisters rest a 1 a le_rfl hmax p hp
  · unfold buildReadRanges
    cases hsk : List.insertionSort (· ≤ ·) ((buildAddressToDefinitions defs).map Prod.fst) with
    | nil => simp
    | cons a rest =>
        rw [hsk] at hch
        exact spanLoop_chain maxRegisters rest a 1 a rfl hch
  · intro a
    rw [hflat]
    exact (List.perm_insertionSort (· ≤ ·) _).mem_iff
  · intro h
    rw [h]
    rfl
  · rfl
  · rfl

/-- Witness for C2 at the scenario-C register list and the Modbus maximum of
125 registers per request. -/
theorem build_read_ranges_partition_witness :
    (1 : Nat) ≤ 125
    ∧ ((buildReadRanges (buildAddressToDefinitions scenarioCDefs) 125).flatMap
        (fun p => List.range' p.1 p.2))
      = List.insertionSort (· ≤ ·) ((buildAddressToDefinitions scenarioCDefs).map Prod.fst) :=
  ⟨by decide, (build_read_ranges_partition scenarioCDefs 125 (by decide)).1⟩
